import Mathlib

/-!
Verification of `prompting/scripts/few_shot_prompting.py`: the label parser,
the single-item classifier around the external model client, the evaluation
loop, and the metrics aggregator.

Python `str` values are modelled as Lean `String`; the string primitives the
script uses (`lower`, `strip`, `split`, slicing, `in`, `startswith`,
`endswith`) are defined below over `List Char` with the semantics Python gives them, so
that every definition evaluates by kernel reduction.
-/

/-- Python `str.lower` (the script only ever compares ASCII markers, and
`Char.toLower` agrees with Python on ASCII). -/
def pyLower (s : List Char) : List Char := s.map Char.toLower

/-- The ASCII whitespace characters Python `str.strip` removes. -/
def pyWS (c : Char) : Bool :=
  c == ' ' || c == '\t' || c == '\n' || c == '\r' || c == '\x0b' || c == '\x0c'

/-- Python `str.strip`: drop whitespace from both ends. -/
def pyStrip (s : List Char) : List Char :=
  ((s.dropWhile pyWS).reverse.dropWhile pyWS).reverse

/-- Python `needle in hay` on strings: `needle` occurs as a contiguous
substring of `hay`. -/
def containsL (hay needle : List Char) : Bool :=
  match hay with
  | [] => needle.isEmpty
  | _ :: rest => needle.isPrefixOf hay || containsL rest needle

/-- Python `str.startswith`. -/
def startsWithL (s pre : List Char) : Bool := pre.isPrefixOf s

/-- Python `str.endswith`. -/
def endsWithL (s suf : List Char) : Bool := suf.reverse.isPrefixOf s.reverse

/-- Python `str.split(sep)` for a non-empty separator, by fuel recursion on
the length of the string (the fuel is always sufficient: each step consumes
at least one character). -/
def pySplitAux (sep : List Char) : Nat → List Char → List (List Char)
  | _, [] => [[]]
  | 0, s => [s]
  | fuel + 1, c :: rest =>
    if sep.isPrefixOf (c :: rest) then
      [] :: pySplitAux sep fuel ((c :: rest).drop sep.length)
    else
      match pySplitAux sep fuel rest with
      | [] => [[c]]
      | h :: t => (c :: h) :: t

/-- Python `str.split(sep)` (non-empty `sep`). -/
def pySplit (sep s : List Char) : List (List Char) := pySplitAux sep s.length s

/-- Source line 74: the explicit positive markers. -/
def patterns_1 : List String :=
  ["[1]", "label: 1", "classification: 1", "answer: 1",
   "1 (clickbait)", "1(clickbait)", "result: 1",
   "output: 1", "prediction: 1", "final: 1"]

/-- Source line 80: the explicit negative markers. -/
def patterns_0 : List String :=
  ["[0]", "label: 0", "classification: 0", "answer: 0",
   "0 (no-clickbait)", "0(no-clickbait)", "result: 0",
   "output: 0", "prediction: 0", "final: 0"]

/-- Line 99 of the source: a stripped line yields label 1 when it is exactly
`1`, ends with `space 1`, or starts with `1 space`. -/
def line_is_1 (l : List Char) : Bool :=
  l == "1".data || endsWithL l " 1".data || startsWithL l "1 ".data

/-- Line 101 of the source: the symmetric conditions for label 0. -/
def line_is_0 (l : List Char) : Bool :=
  l == "0".data || endsWithL l " 0".data || startsWithL l "0 ".data

/-- Lines 97-102 of the source: scan the given lines in order (the caller
passes the reversed line list), strip each, and return the first match. -/
def scan_lines : List (List Char) → Option Int
  | [] => none
  | l :: rest =>
    if line_is_1 (pyStrip l) then some 1
    else if line_is_0 (pyStrip l) then some 0
    else scan_lines rest

/-- The label parser `parse_prompt_response` (lines 66-111).  The unused `original_text` copy
and the unused `method` argument of the source are omitted.  The two
pattern `for` loops are rendered as `List.any` over the same pattern lists
(every iteration returns the same constant, so first-match equals any-match).
-/
def parse_prompt_response (response_text : String) : Int :=
  let rt := pyLower response_text.data
  if patterns_1.any (fun p => containsL rt p.data) then 1
  else if patterns_0.any (fun p => containsL rt p.data) then 0
  else
    match scan_lines (pySplit "\n".data (pyStrip rt)).reverse with
    | some r => r
    | none =>
      if containsL rt "clickbait".data
          && !containsL rt "no-clickbait".data
          && !containsL rt "not clickbait".data then 1
      else if containsL rt "no-clickbait".data || containsL rt "not clickbait".data then 0
      else -1

/-- Lines 53-61 of the source, applied to the already-stripped response
text: the lightweight `answer:` fast path, falling through to
`parse_prompt_response` when inconclusive.  `split("answer:")[-1]` is
`(pySplit .. ).getLastD []` (the default is never used: `pySplit` never
returns `[]`). -/
def classify_response (response_text : String) : Int :=
  let rt := pyLower response_text.data
  if containsL rt "answer:".data then
    let answer_part := (pySplit "answer:".data rt).getLastD []
    if containsL (answer_part.take 5) "1".data then 1
    else if containsL (answer_part.take 5) "0".data then 0
    else parse_prompt_response response_text
  else parse_prompt_response response_text

/-- Lines 27-38 of the source: the fixed few-shot prompt around the target
title. -/
def few_shot_prompt (title : String) : String :=
  "Classify headlines as clickbait based on these examples:\n\n" ++
  "1. \"Federal Reserve raises interest rates by 0.5%\" → 0 (specific data, neutral)\n" ++
  "2. \"You\x27ll NEVER believe what this dog did!\" → 1 (emotional \"NEVER\", withholding info)\n" ++
  "3. \"Apple reports Q3 earnings: Revenue up 8%\" → 0 (factual business news)\n" ++
  "4. \"This ONE trick doctors don\x27t want you to know\" → 1 (\"ONE trick\", conspiracy)\n" ++
  "5. \"Study: Mediterranean diet reduces heart disease 30%\" → 0 (research findings)\n" ++
  "6. \"What happens next will SHOCK you completely\" → 1 (emotional \"SHOCK\", vague)\n\n" ++
  "Now classify: \"" ++ title ++ "\"\n\nAnswer: 0 or 1"

/-- The single-item classifier `few_shot_prompting` (lines 25-64).  The external OpenAI client is a
parameter mapping the built prompt to either a reply text or a failure; the
`try/except` around the call is the `Except` match: any client failure is
logged and becomes the sentinel `-1`.  On success the reply content is
stripped (line 51) and parsed. -/
def few_shot_prompting (client : String → Except String String) (title : String) : Int :=
  match client (few_shot_prompt title) with
  | Except.error _ => -1
  | Except.ok content => classify_response (String.mk (pyStrip content.data))

/-- One dataset record as the evaluation loop consumes it. -/
structure Item where
  id : Nat
  title : String
  label : Int

/-- Lines 168-170 of the source: indices of the predictions that are not the
`-1` sentinel. -/
def valid_indices (predictions : List Int) : List Nat :=
  (List.range predictions.length).filter fun i => !(predictions.getD i (-1) == -1)

/-- Lines 169-170 of the source: project a list onto the selected indices
(Python indexing; the indices produced by `valid_indices` are in range). -/
def project (xs : List Int) (idxs : List Nat) : List Int :=
  idxs.map fun i => xs.getD i (-1)

/-- External `sklearn.metrics.accuracy_score` on label lists: the fraction of
positions where the two lists agree (the aggregator only calls it on
non-empty lists of equal length). -/
def accuracy_score (y_true y_pred : List Int) : ℚ :=
  (((y_true.zip y_pred).countP fun p => p.1 == p.2 : ℕ) : ℚ) / (y_true.length : ℚ)

/-- The summary record `calculate_metrics` returns (lines 207-218).  The
precision/recall/F1 fields are produced by the external `sklearn` metric
library, which the spec excludes from the core and treats as a known,
correct external function; they are not modelled here. -/
structure MetricsSummary where
  method : String
  accuracy : ℚ
  valid_samples : Nat
  total_samples : Nat

/-- The aggregator `calculate_metrics` (lines 165-218): filter out sentinel predictions,
return `none` when nothing is left, otherwise package the metrics computed
over the filtered pair. -/
def calculate_metrics (predictions true_labels : List Int) (method_name : String) :
    Option MetricsSummary :=
  let vi := valid_indices predictions
  let vp := project predictions vi
  let vt := project true_labels vi
  if vp.length = 0 then none
  else some ⟨method_name, accuracy_score vt vp, vp.length, predictions.length⟩

/-- The loop body of `evaluate_few_shot_method` (lines 229-248): classify
each item in order, appending the prediction and the true label.  A
`KeyboardInterrupt` is modelled by an optional countdown observed at
iteration boundaries (spec section 5: interrupts are observed between
items); when it fires, the Python exception aborts the loop, and the
accumulated pair is carried in the `error` case only to state what had been
collected — the Python handler has no access to it. -/
def evaluate_loop (client : String → Except String String) :
    List Item → Option Nat → List Int × List Int →
    Except (List Int × List Int) (List Int × List Int)
  | [], _, acc => Except.ok acc
  | _ :: _, some 0, acc => Except.error acc
  | it :: rest, fuel, (ps, ts) =>
    evaluate_loop client rest (fuel.map fun k => k - 1)
      (ps ++ [few_shot_prompting client it.title], ts ++ [it.label])

/-- The loop `evaluate_few_shot_method` (lines 220-248), with an optional interrupt
countdown: `some k` means the operator interrupt arrives right before the
`(k+1)`-st item is processed. -/
def evaluate_few_shot_method (client : String → Except String String)
    (data : List Item) (interrupt : Option Nat) :
    Except (List Int × List Int) (List Int × List Int) :=
  evaluate_loop client data interrupt ([], [])

/-- The runner `run_few_shot_evaluation` (lines 250-278), after data loading: run the
evaluation; a normal completion feeds the two sequences to
`calculate_metrics`; a `KeyboardInterrupt` is caught by the
`except KeyboardInterrupt` handler (line 275), which only prints
"Stopped by user" — no metrics are computed and the partial sequences,
being locals of the aborted call, are discarded. -/
def run_few_shot_evaluation (client : String → Except String String)
    (data : List Item) (interrupt : Option Nat) : Option MetricsSummary :=
  match evaluate_few_shot_method client data interrupt with
  | Except.error _ => none
  | Except.ok (ps, ts) => calculate_metrics ps ts "few_shot"

/-! ## Helper lemmas -/

/-- If some marker of a pattern list occurs in the lowered text, the `any`
scan over that list succeeds. -/
lemma any_contains_of_mem {rt : List Char} {l : List String} {p : String}
    (hm : p ∈ l) (h : containsL rt p.data = true) :
    (l.any fun q => containsL rt q.data) = true :=
  List.any_eq_true.mpr ⟨p, hm, h⟩

/-- If every line fails both line conditions, the scan finds nothing. -/
lemma scan_lines_eq_none {L : List (List Char)}
    (h : ∀ l ∈ L, line_is_1 (pyStrip l) = false ∧ line_is_0 (pyStrip l) = false) :
    scan_lines L = none := by
  induction L with
  | nil => rfl
  | cons l rest ih =>
    have hl := h l (List.mem_cons_self l rest)
    have hrest : ∀ x ∈ rest, line_is_1 (pyStrip x) = false ∧ line_is_0 (pyStrip x) = false :=
      fun x hx => h x (List.mem_cons_of_mem l hx)
    simp [scan_lines, hl.1, hl.2, ih hrest]

/-- The line scan only ever produces the labels 1 and 0. -/
lemma scan_lines_result {L : List (List Char)} {r : Int}
    (h : scan_lines L = some r) : r = 1 ∨ r = 0 := by
  induction L with
  | nil => simp [scan_lines] at h
  | cons l rest ih =>
    by_cases h1 : line_is_1 (pyStrip l) = true
    · simp [scan_lines, h1] at h
      exact Or.inl h.symm
    · by_cases h0 : line_is_0 (pyStrip l) = true
      · simp [scan_lines, h1, h0] at h
        exact Or.inr h.symm
      · simp [scan_lines, h1, h0] at h
        exact ih h

/-! ## Claims -/

/-- C1, counterexample to the symmetric half: the text
`label: 1 label: 0` contains the negative marker `label: 0`, yet the parser
returns 1 (the positive scan runs first), not 0. -/
theorem c1_counterexample :
    containsL (pyLower ("label: 1 label: 0").data) "label: 0".data = true ∧
    parse_prompt_response "label: 1 label: 0" = 1 := by
  exact ⟨by decide, by decide⟩

/-- C1 (amended): any text whose lower-casing contains `label: 1` parses to
1 regardless of surrounding content; a text whose lower-casing contains
`label: 0` parses to 0 provided no positive explicit marker also occurs. -/
theorem c1_label_markers (t : String) :
    (containsL (pyLower t.data) "label: 1".data = true → parse_prompt_response t = 1) ∧
    ((patterns_1.any fun p => containsL (pyLower t.data) p.data) = false →
      containsL (pyLower t.data) "label: 0".data = true → parse_prompt_response t = 0) := by
  constructor
  · intro h
    have hany : (patterns_1.any fun p => containsL (pyLower t.data) p.data) = true :=
      any_contains_of_mem (by simp [patterns_1]) h
    simp [parse_prompt_response, hany]
  · intro h1 h
    have hany : (patterns_0.any fun p => containsL (pyLower t.data) p.data) = true :=
      any_contains_of_mem (by simp [patterns_0]) h
    simp [parse_prompt_response, h1, hany]

/-- C1, witness for the amended statement at concrete inputs. -/
theorem c1_witness :
    parse_prompt_response "label: 1" = 1 ∧ parse_prompt_response "label: 0" = 0 :=
  ⟨(c1_label_markers "label: 1").1 (by decide),
   (c1_label_markers "label: 0").2 (by decide) (by decide)⟩

/-- C2: when a positive explicit marker and a negative explicit marker both
occur in the lowered text, the parser returns 1 — the positive scan is
evaluated first. -/
theorem c2_positive_scan_first (t : String)
    (hp : ∃ p ∈ patterns_1, containsL (pyLower t.data) p.data = true)
    (_hq : ∃ q ∈ patterns_0, containsL (pyLower t.data) q.data = true) :
    parse_prompt_response t = 1 := by
  obtain ⟨p, hm, h⟩ := hp
  have hany : (patterns_1.any fun p => containsL (pyLower t.data) p.data) = true :=
    any_contains_of_mem hm h
  simp [parse_prompt_response, hany]

/-- C2, witness: a text carrying both `answer: 1` and `label: 0` parses
to 1. -/
theorem c2_witness : parse_prompt_response "answer: 1 label: 0" = 1 :=
  c2_positive_scan_first "answer: 1 label: 0"
    ⟨"answer: 1", by decide, by decide⟩ ⟨"label: 0", by decide, by decide⟩

/-- C7: any failure of the external client inside `few_shot_prompting` is
caught and surfaces as the sentinel -1; it is never propagated. -/
theorem c7_client_failure_returns_unknown (client : String → Except String String)
    (title : String) (e : String)
    (h : client (few_shot_prompt title) = Except.error e) :
    few_shot_prompting client title = -1 := by
  unfold few_shot_prompting
  rw [h]

/-- C7, witness: a client that fails with a network error yields -1. -/
theorem c7_witness :
    few_shot_prompting (fun _ => Except.error "network error") "some headline" = -1 :=
  c7_client_failure_returns_unknown (fun _ => Except.error "network error")
    "some headline" "network error" rfl

/-- C3: a text with no explicit marker, no line matching the line-based
fallback, and none of the keywords `clickbait`, `no-clickbait`,
`not clickbait` parses to the sentinel -1, never 0 or 1. -/
theorem c3_unparseable_returns_unknown (t : String)
    (h1 : (patterns_1.any fun p => containsL (pyLower t.data) p.data) = false)
    (h0 : (patterns_0.any fun p => containsL (pyLower t.data) p.data) = false)
    (hl : ∀ l ∈ pySplit "\n".data (pyStrip (pyLower t.data)),
      line_is_1 (pyStrip l) = false ∧ line_is_0 (pyStrip l) = false)
    (hc : containsL (pyLower t.data) "clickbait".data = false)
    (hn1 : containsL (pyLower t.data) "no-clickbait".data = false)
    (hn2 : containsL (pyLower t.data) "not clickbait".data = false) :
    parse_prompt_response t = -1 := by
  have hscan : scan_lines (pySplit "\n".data (pyStrip (pyLower t.data))).reverse = none :=
    scan_lines_eq_none fun l hlmem => hl l (List.mem_reverse.mp hlmem)
  simp [parse_prompt_response, h1, h0, hscan, hc, hn1, hn2]

/-- C3, witness: the example reply from the spec with no markers and no keywords. -/
theorem c3_witness : parse_prompt_response "I think this could go either way" = -1 :=
  c3_unparseable_returns_unknown "I think this could go either way"
    (by decide) (by decide) (by decide) (by decide) (by decide) (by decide)

/-- C9: with no explicit markers, when the last line satisfies both a
1-condition and a 0-condition of the line-based fallback, the parser
returns 1: within each scanned line the 1-conditions are tested first. -/
theorem c9_line_one_conditions_first (t : String)
    (h1 : (patterns_1.any fun p => containsL (pyLower t.data) p.data) = false)
    (h0 : (patterns_0.any fun p => containsL (pyLower t.data) p.data) = false)
    (hl1 : line_is_1 (pyStrip
      ((pySplit "\n".data (pyStrip (pyLower t.data))).getLastD [])) = true)
    (_hl0 : line_is_0 (pyStrip
      ((pySplit "\n".data (pyStrip (pyLower t.data))).getLastD [])) = true) :
    parse_prompt_response t = 1 := by
  have hne : pySplit "\n".data (pyStrip (pyLower t.data)) ≠ [] := by
    intro heq
    rw [heq] at hl1
    exact absurd hl1 (by decide)
  have hlast : (pySplit "\n".data (pyStrip (pyLower t.data))).getLastD [] =
      (pySplit "\n".data (pyStrip (pyLower t.data))).getLast hne := by
    rw [List.getLastD_eq_getLast?, List.getLast?_eq_getLast _ hne]
    rfl
  have hrev : (pySplit "\n".data (pyStrip (pyLower t.data))).reverse =
      (pySplit "\n".data (pyStrip (pyLower t.data))).getLast hne ::
        (pySplit "\n".data (pyStrip (pyLower t.data))).dropLast.reverse := by
    conv_lhs => rw [← List.dropLast_append_getLast hne]
    rw [List.reverse_append]
    rfl
  rw [hlast] at hl1
  have hscan : scan_lines (pySplit "\n".data (pyStrip (pyLower t.data))).reverse = some 1 := by
    rw [hrev]
    simp [scan_lines, hl1]
  simp [parse_prompt_response, h1, h0, hscan]

/-- C9, witness: the line `1 vs 0` starts with `1 space` and ends with
`space 0`, and parses to 1. -/
theorem c9_witness : parse_prompt_response "1 vs 0" = 1 :=
  c9_line_one_conditions_first "1 vs 0" (by decide) (by decide) (by decide) (by decide)

/-- C10: whenever the lowered text contains the substring `clickbait`, the
parser returns 0 or 1 — the sentinel branch is unreachable, because the two
keyword-fallback branches together cover every such text. -/
theorem c10_clickbait_never_unknown (t : String)
    (h : containsL (pyLower t.data) "clickbait".data = true) :
    parse_prompt_response t = 0 ∨ parse_prompt_response t = 1 := by
  by_cases hb1 : (patterns_1.any fun p => containsL (pyLower t.data) p.data) = true
  · right; simp [parse_prompt_response, hb1]
  · rw [Bool.not_eq_true] at hb1
    by_cases hb0 : (patterns_0.any fun p => containsL (pyLower t.data) p.data) = true
    · left; simp [parse_prompt_response, hb1, hb0]
    · rw [Bool.not_eq_true] at hb0
      cases hscan : scan_lines (pySplit "\n".data (pyStrip (pyLower t.data))).reverse with
      | some r =>
        rcases scan_lines_result hscan with hr | hr
        · right; simp [parse_prompt_response, hb1, hb0, hscan, hr]
        · left; simp [parse_prompt_response, hb1, hb0, hscan, hr]
      | none =>
        by_cases hn1 : containsL (pyLower t.data) "no-clickbait".data = true
        · left; simp [parse_prompt_response, hb1, hb0, hscan, hn1]
        · rw [Bool.not_eq_true] at hn1
          by_cases hn2 : containsL (pyLower t.data) "not clickbait".data = true
          · left; simp [parse_prompt_response, hb1, hb0, hscan, hn1, hn2]
          · rw [Bool.not_eq_true] at hn2
            right; simp [parse_prompt_response, hb1, hb0, hscan, h, hn1, hn2]

/-- C10, witness: a reply containing `clickbait` parses to a definite
label. -/
theorem c10_witness :
    parse_prompt_response "clickbait" = 0 ∨ parse_prompt_response "clickbait" = 1 :=
  c10_clickbait_never_unknown "clickbait" (by decide)

/-- C4: when the lowered reply contains `answer:`, the fast path works on
the piece after the last occurrence: a `1` within its first 5 characters
returns 1, otherwise a `0` within the first 5 characters returns 0, and
only when neither digit appears does control pass to the full parser
cascade. -/
theorem c4_answer_fast_path (t : String)
    (h : containsL (pyLower t.data) "answer:".data = true) :
    (containsL (((pySplit "answer:".data (pyLower t.data)).getLastD []).take 5) "1".data = true →
      classify_response t = 1) ∧
    (containsL (((pySplit "answer:".data (pyLower t.data)).getLastD []).take 5) "1".data = false →
      containsL (((pySplit "answer:".data (pyLower t.data)).getLastD []).take 5) "0".data = true →
      classify_response t = 0) ∧
    (containsL (((pySplit "answer:".data (pyLower t.data)).getLastD []).take 5) "1".data = false →
      containsL (((pySplit "answer:".data (pyLower t.data)).getLastD []).take 5) "0".data = false →
      classify_response t = parse_prompt_response t) := by
  refine ⟨fun h1 => ?_, fun h1 h0 => ?_, fun h1 h0 => ?_⟩
  · simp only [classify_response]
    rw [if_pos h, if_pos h1]
  · simp only [classify_response]
    rw [if_pos h, if_neg (by rw [h1]; exact Bool.false_ne_true), if_pos h0]
  · simp only [classify_response]
    rw [if_pos h, if_neg (by rw [h1]; exact Bool.false_ne_true),
      if_neg (by rw [h0]; exact Bool.false_ne_true)]

/-- C4, witness: the reply `Answer: 0` takes the fast path to 0, both at the
parsing stage and through the whole single-item classifier given a client
that replies `Answer: 0` to the fixed prompt for the example
title from the spec. -/
theorem c4_witness :
    classify_response "Answer: 0" = 0 ∧
    few_shot_prompting (fun _ => Except.ok "Answer: 0")
      "Federal Reserve raises interest rates by 0.5%" = 0 :=
  ⟨(c4_answer_fast_path "Answer: 0" (by decide)).2.1 (by decide) (by decide),
   by decide⟩

/-- C5: on predictions `[1,0,1,-1,0]` against labels `[1,0,0,1,0]`, the
aggregator filters to `[1,0,1,0]` versus `[1,0,0,0]`, reports 4 valid of 5
total samples, and the accuracy over the filtered pair is 3/4 = 0.75. -/
theorem c5_metrics_example :
    project [1, 0, 1, -1, 0] (valid_indices [1, 0, 1, -1, 0]) = [1, 0, 1, 0] ∧
    project [1, 0, 0, 1, 0] (valid_indices [1, 0, 1, -1, 0]) = [1, 0, 0, 0] ∧
    (calculate_metrics [1, 0, 1, -1, 0] [1, 0, 0, 1, 0] "few_shot").map
      (fun s => s.valid_samples) = some 4 ∧
    (calculate_metrics [1, 0, 1, -1, 0] [1, 0, 0, 1, 0] "few_shot").map
      (fun s => s.total_samples) = some 5 ∧
    (calculate_metrics [1, 0, 1, -1, 0] [1, 0, 0, 1, 0] "few_shot").map
      (fun s => s.accuracy) = some (3 / 4) := by
  refine ⟨by decide, by decide, by decide, by decide, ?_⟩
  have hm : (calculate_metrics [1, 0, 1, -1, 0] [1, 0, 0, 1, 0] "few_shot").map
      (fun s => s.accuracy) = some (accuracy_score [1, 0, 0, 0] [1, 0, 1, 0]) := rfl
  have hc : ((([1, 0, 0, 0] : List Int).zip [1, 0, 1, 0]).countP fun p => p.1 == p.2) = 3 := by
    decide
  rw [hm]
  unfold accuracy_score
  rw [hc]
  norm_num

/-- C6: when every prediction is the sentinel -1, the aggregator returns
the absent result and computes no metrics. -/
theorem c6_all_unknown_no_summary (predictions true_labels : List Int) (name : String)
    (h : ∀ p ∈ predictions, p = -1) :
    calculate_metrics predictions true_labels name = none := by
  have hvi : valid_indices predictions = [] := by
    unfold valid_indices
    rw [List.filter_eq_nil_iff]
    intro i hi
    have hlt : i < predictions.length := List.mem_range.mp hi
    have hval : predictions.getD i (-1) = -1 := by
      rw [List.getD_eq_getElem _ _ hlt]
      exact h _ (List.getElem_mem hlt)
    rw [List.getD_eq_getElem?_getD] at hval
    simp [hval]
  simp [calculate_metrics, hvi, project]

/-- C6, witness: two sentinel predictions produce no summary. -/
theorem c6_witness : calculate_metrics [-1, -1] [1, 0] "few_shot" = none :=
  c6_all_unknown_no_summary [-1, -1] [1, 0] "few_shot" (by decide)

/-- When the interrupt countdown fires, whatever the loop had accumulated
equals the accumulator extended with the classifications of the first `k`
items, in order. -/
lemma evaluate_loop_interrupt (client : String → Except String String) :
    ∀ (data : List Item) (k : Nat) (ps ts : List Int) (out : List Int × List Int),
      evaluate_loop client data (some k) (ps, ts) = Except.error out →
      out.1 = ps ++ (data.take k).map (fun it => few_shot_prompting client it.title) ∧
      out.2 = ts ++ (data.take k).map (fun it => it.label) := by
  intro data
  induction data with
  | nil =>
    intro k ps ts out h
    rw [show evaluate_loop client [] (some k) (ps, ts) = Except.ok (ps, ts) from rfl] at h
    simp at h
  | cons it rest ih =>
    intro k ps ts out h
    cases k with
    | zero =>
      rw [show evaluate_loop client (it :: rest) (some 0) (ps, ts) =
        Except.error (ps, ts) from rfl] at h
      simp only [Except.error.injEq] at h
      rw [← h]
      simp
    | succ k =>
      rw [show evaluate_loop client (it :: rest) (some (k + 1)) (ps, ts) =
        evaluate_loop client rest (some k)
          (ps ++ [few_shot_prompting client it.title], ts ++ [it.label]) from rfl] at h
      obtain ⟨o1, o2⟩ := ih k _ _ out h
      constructor
      · rw [o1, List.take_succ_cons, List.map_cons, List.append_assoc]
        rfl
      · rw [o2, List.take_succ_cons, List.map_cons, List.append_assoc]
        rfl

/-- C8 (amended): when the operator interrupt stops the loop after `k`
items, the sequences collected so far are exactly the classifications and
labels of those first `k` items — intact and index-aligned — but the run
does not report metrics on them: the interrupt handler only logs the stop
and discards the partial data. -/
theorem c8_interrupt_no_partial_metrics (client : String → Except String String)
    (data : List Item) (k : Nat) (ps ts : List Int)
    (h : evaluate_few_shot_method client data (some k) = Except.error (ps, ts)) :
    ps = (data.take k).map (fun it => few_shot_prompting client it.title) ∧
    ts = (data.take k).map (fun it => it.label) ∧
    ps.length = ts.length ∧
    run_few_shot_evaluation client data (some k) = none := by
  obtain ⟨o1, o2⟩ := evaluate_loop_interrupt client data k [] [] (ps, ts) h
  simp only [List.nil_append] at o1 o2
  refine ⟨o1, o2, ?_, ?_⟩
  · rw [o1, o2, List.length_map, List.length_map]
  · unfold run_few_shot_evaluation
    rw [h]

/-- C8, witness for the amended statement: an interrupt after the first of
two items leaves the aligned pair `([1], [1])` and the run reports no
metrics. -/
theorem c8_witness :
    ([1] : List Int) = (([⟨0, "a", 1⟩, ⟨1, "b", 0⟩] : List Item).take 1).map
      (fun it => few_shot_prompting (fun _ => Except.ok "1") it.title) ∧
    ([1] : List Int) = (([⟨0, "a", 1⟩, ⟨1, "b", 0⟩] : List Item).take 1).map
      (fun it => it.label) ∧
    ([1] : List Int).length = ([1] : List Int).length ∧
    run_few_shot_evaluation (fun _ => Except.ok "1")
      [⟨0, "a", 1⟩, ⟨1, "b", 0⟩] (some 1) = none :=
  c8_interrupt_no_partial_metrics (fun _ => Except.ok "1")
    [⟨0, "a", 1⟩, ⟨1, "b", 0⟩] 1 [1] [1] rfl

/-- C8, counterexample to the claim as stated: with a client whose replies
all parse, an interrupt after one of two items leaves the valid partial
pair `([1], [1])` — on which the aggregator would produce a summary — yet
the run reports no metrics at all. -/
theorem c8_counterexample :
    evaluate_few_shot_method (fun _ => Except.ok "1")
      [⟨0, "a", 1⟩, ⟨1, "b", 0⟩] (some 1) = Except.error ([1], [1]) ∧
    run_few_shot_evaluation (fun _ => Except.ok "1")
      [⟨0, "a", 1⟩, ⟨1, "b", 0⟩] (some 1) = none ∧
    (calculate_metrics [1] [1] "few_shot").isSome = true :=
  ⟨rfl, rfl, rfl⟩
